import Mathlib

/-!
# KC Portal — verification of the specification against the code

Shallow embedding of the membership-portal handlers (`src/main.py`,
`src/admin.py`, `src/models.py`) and proofs of the frozen claims about them.

Conventions of the embedding:
* The relational store is a pair of `DbData` snapshots (`committed`,
  `current`): `db.add` / ORM mutation acts on `current` (SQLAlchemy
  autoflush makes pending rows visible to later queries in the same
  transaction), `db.commit` copies `current` into `committed`,
  `db.rollback` (and the session teardown after an unhandled exception)
  restores `current` from `committed`.
* The bcrypt primitive is out of scope per the spec (§1); it is modelled by
  an injective tagging function, so `verify_password p (get_password_hash q)`
  holds exactly when `p = q`.
* Timestamps are abstract `Nat` ticks; `datetime.utcnow()` is passed in as
  a `now` parameter.
* Python `str` operations used by the code (`lower`, `strip`, `replace` of
  a single-character pattern, truthiness) are modelled over ASCII.
-/

namespace KC

/-! ## Python string primitives -/

/-- Python `str.lower` restricted to ASCII letters (the identifiers the code
lowercases are membership numbers and email addresses). -/
def pyLowerChar (c : Char) : Char :=
  if 'A' ≤ c ∧ c ≤ 'Z' then Char.ofNat (c.toNat + 32) else c

/-- Python `str.lower` on a string. -/
def pyLower (s : String) : String :=
  String.mk (s.data.map pyLowerChar)

/-- Python truthiness of an optional string: `None` and `""` are falsy. -/
def pyTruthy : Option String → Bool
  | none => false
  | some s => !s.isEmpty

/-! ## Credential hashing (external primitive, out of scope per spec §1) -/

/-- Model of `passlib` bcrypt hashing: an injective tag. -/
def get_password_hash (password : String) : String :=
  "bcrypt$" ++ password

/-- Model of `pwd_context.verify`: succeeds exactly on the hashed password. -/
def verify_password (plain_password hashed_password : String) : Bool :=
  hashed_password == get_password_hash plain_password

/-! ## Data model (`src/models.py`) -/

/-- Row of the `users` table. -/
structure User where
  id : Nat
  membership_number : String
  email : Option String := none
  first_name : Option String := none
  last_name : Option String := none
  phone_number : Option String := none
  position : Option String := none
  is_admin : Bool := false
deriving Repr, DecidableEq

/-- Row of the `user_passwords` table. -/
structure UserPassword where
  membership_number : String
  password_hash : String
deriving Repr, DecidableEq

/-- Row of the `password_resets` table. -/
structure PasswordReset where
  id : Nat
  user_id : Nat
  key : String
  expires_at : Nat
  used : Bool := false
deriving Repr, DecidableEq

/-- The tables the verified handlers touch. -/
structure DbData where
  users : List User := []
  creds : List UserPassword := []
  resets : List PasswordReset := []
deriving Repr, DecidableEq

/-- A session over the store: the durable snapshot and the transaction's
working state. -/
structure DbState where
  committed : DbData
  current : DbData
deriving Repr, DecidableEq

/-- A fresh session on a committed snapshot. -/
def DbState.fresh (d : DbData) : DbState := ⟨d, d⟩

/-- `db.commit()`. -/
def DbState.commit (s : DbState) : DbState := ⟨s.current, s.current⟩

/-- `db.rollback()` (also what the session teardown does after an unhandled
exception). -/
def DbState.rollback (s : DbState) : DbState := ⟨s.committed, s.committed⟩

/-- Replace the working state, leaving the durable snapshot alone. -/
def DbState.setCurrent (s : DbState) (d : DbData) : DbState := ⟨s.committed, d⟩

/-! ## Password strength (`is_password_strong`, main.py:69-76) -/

/-- `re.search(r"[a-z]", password)` — an ASCII lowercase letter occurs. -/
def hasLowercase (password : String) : Bool :=
  password.data.any fun c => 'a' ≤ c ∧ c ≤ 'z'

/-- `re.search(r"[A-Z]", password)` — an ASCII uppercase letter occurs. -/
def hasUppercase (password : String) : Bool :=
  password.data.any fun c => 'A' ≤ c ∧ c ≤ 'Z'

/-- `is_password_strong` (main.py:69-76), with the code's early returns. -/
def is_password_strong (password : String) : Bool :=
  if password.length < 10 then false
  else if !hasLowercase password then false
  else if !hasUppercase password then false
  else true

/-! ## C7: strength policy characterization -/

/-- C7: the strength check accepts a password iff it has length at least 10,
contains an ASCII lowercase letter and an ASCII uppercase letter — nothing
else (no digit or symbol requirement); "abcdefghi1" is rejected and
"Abcdefghij" is accepted. -/
theorem C7_password_strength_policy :
    (∀ password : String,
      is_password_strong password = true ↔
        (10 ≤ password.length ∧
          (∃ c ∈ password.data, 'a' ≤ c ∧ c ≤ 'z') ∧
          (∃ c ∈ password.data, 'A' ≤ c ∧ c ≤ 'Z'))) ∧
    is_password_strong "abcdefghi1" = false ∧
    is_password_strong "Abcdefghij" = true := by
  refine ⟨fun password => ?_, by decide, by decide⟩
  unfold is_password_strong hasLowercase hasUppercase
  by_cases hlen : password.length < 10
  · simp [hlen]
  · simp [hlen, List.any_eq_true]
    intro _
    omega

/-! ## Login (`login`, main.py:105-136) -/

/-- Outcome of a login attempt: either the error page with "Invalid
credentials", or a redirect carrying the `user_id` session cookie. -/
inductive LoginResult where
  | invalidCredentials
  | success (cookie_user_id : Nat)
deriving Repr, DecidableEq

/-- The query filter of main.py:108-113:
`lower(membership_number) == username.lower() OR lower(email) == username.lower()`.
A NULL email compares false in SQL. -/
def matchesUsername (username : String) (u : User) : Bool :=
  pyLower u.membership_number == pyLower username ||
    (match u.email with
     | some e => pyLower e == pyLower username
     | none => false)

/-- `login` (main.py:105-136). `.first()` on the user query is the first
matching row; when the matched user has no credential row, a default one
(hash of the membership number) is created and committed before the literal
comparison of the submitted password with the membership number. -/
def login (s : DbState) (username password : String) : LoginResult × DbState :=
  match s.current.users.find? (matchesUsername username) with
  | none => (.invalidCredentials, s)
  | some user =>
    match s.current.creds.find?
        (fun c => c.membership_number == user.membership_number) with
    | none =>
      let s1 := (s.setCurrent
        { s.current with
          creds := s.current.creds ++
            [⟨user.membership_number, get_password_hash user.membership_number⟩] }).commit
      if !(password == user.membership_number) then (.invalidCredentials, s1)
      else (.success user.id, s1)
    | some user_password =>
      if !(verify_password password user_password.password_hash) then
        (.invalidCredentials, s)
      else (.success user.id, s)

/-- The claim's notion of "the submitted password is correct" for user `u`:
verifies against the stored hash, or, when no credential record exists,
literally equals the membership number. -/
def passwordCorrect (d : DbData) (u : User) (password : String) : Bool :=
  match d.creds.find? (fun c => c.membership_number == u.membership_number) with
  | some c => verify_password password c.password_hash
  | none => password == u.membership_number

/-- C1 exactly as stated quantifies over "some user": some user matches the
username case-insensitively and the password is correct for that user. -/
def someUserAuthenticates (d : DbData) (username password : String) : Bool :=
  d.users.any fun u => matchesUsername username u && passwordCorrect d u password

/-- The login outcome C1 must be amended to: it is decided by the first
matching user only. -/
def loginSpec (d : DbData) (username password : String) : LoginResult :=
  match d.users.find? (matchesUsername username) with
  | none => .invalidCredentials
  | some u =>
    if passwordCorrect d u password then .success u.id else .invalidCredentials

/-- A store where the username "m@x.com" matches user 1 by membership number
and user 2 by email, and the submitted password is correct for user 2 only. -/
def C1cexDb : DbData :=
  { users :=
      [{ id := 1, membership_number := "m@x.com" },
       { id := 2, membership_number := "b2", email := some "M@X.COM" }],
    creds :=
      [⟨"m@x.com", get_password_hash "pa"⟩,
       ⟨"b2", get_password_hash "pb"⟩] }

/-- C1 counterexample: some user (user 2, matched by email) authenticates
with the submitted password, yet the code sets no cookie and shows
"Invalid credentials", because it checks the password only against the
first match (user 1, matched by membership number). -/
theorem C1_counterexample :
    someUserAuthenticates C1cexDb "m@x.com" "pb" = true ∧
    (login (DbState.fresh C1cexDb) "m@x.com" "pb").1 = .invalidCredentials := by
  decide

/-- C1 (amended): for every login attempt, the session cookie (the user's
numeric id) is attached iff the first user whose membership number or email
matches the submitted username case-insensitively exists and the submitted
password is correct for that user (hash verification, or literal equality
with the membership number when no credential record exists — a default
credential being created and committed in that case); every other attempt
yields the "Invalid credentials" outcome with no cookie. -/
theorem C1_login_cookie_iff_first_match (s : DbState) (username password : String) :
    (login s username password).1 = loginSpec s.current username password := by
  unfold login loginSpec passwordCorrect
  cases hu : s.current.users.find? (matchesUsername username) with
  | none => rfl
  | some user =>
    cases hc : s.current.creds.find?
        (fun c => c.membership_number == user.membership_number) with
    | none =>
      by_cases hp : password == user.membership_number
      · simp [hc, hp]
      · simp [hc, hp]
    | some user_password =>
      by_cases hv : verify_password password user_password.password_hash
      · simp [hc, hv]
      · simp [hc, hv]

/-! ## CSV bulk import (`import_users`, main.py:306-361 and admin.py:38-93;
the two handlers are character-for-character the same logic) -/

/-- One parsed CSV row: the fields `row.get(...)` reads, `none` when the
column is missing. -/
structure CsvRow where
  membership_number : Option String := none
  primary_email : Option String := none
  first_name : Option String := none
  last_name : Option String := none
  cell_phone : Option String := none
  residence_phone : Option String := none
deriving Repr, DecidableEq

/-- main.py:330-332: `if not email or email.strip() == "": email = None`. -/
def normEmail : Option String → Option String
  | none => none
  | some e => if e.isEmpty || e.trim == "" then none else some e

/-- Python `a or b` over optional strings (main.py:346). -/
def pyOrElse (a b : Option String) : Option String :=
  if pyTruthy a then a else b

/-- The `models.User(...)` constructed at main.py:341-348; the primary key is
the autoincrement successor of the largest id in the table. -/
def mkImportedUser (d : DbData) (m : String) (row : CsvRow)
    (email : Option String) : User :=
  { id := (d.users.map (·.id)).foldr max 0 + 1,
    membership_number := m,
    first_name := row.first_name,
    last_name := row.last_name,
    email := email,
    phone_number := pyOrElse row.cell_phone row.residence_phone,
    is_admin := false }

/-- The body of the `for row in reader` loop (main.py:319-356) on the
transaction's working state; the Bool tells whether `count` was bumped.
Queries see rows added by earlier iterations (SQLAlchemy autoflush). -/
def importRow (d : DbData) (row : CsvRow) : DbData × Bool :=
  match row.membership_number with
  | none => (d, false)
  | some m =>
    if m.isEmpty then (d, false)
    else if d.users.any (fun u => u.membership_number == m) then (d, false)
    else
      let email := normEmail row.primary_email
      if email.any (fun e => d.users.any fun u => u.email == some e) then (d, false)
      else
        ({ d with
            users := d.users ++ [mkImportedUser d m row email],
            creds := d.creds ++ [⟨m, get_password_hash m⟩] }, true)

/-- The loop over the decoded reader: a `.error` entry is a row whose
reading or processing raises that exception text. -/
def importRows (d : DbData) (rows : List (Except String CsvRow)) (count : Nat) :
    Except String (DbData × Nat) :=
  match rows with
  | [] => .ok (d, count)
  | .error e :: _ => .error e
  | .ok row :: rest =>
    let step := importRow d row
    importRows step.1 rest (count + (if step.2 then 1 else 0))

/-- `import_users` (main.py:306-361): run the whole batch in one
transaction, commit at the end; any exception rolls the batch back
(main.py:359-361) and returns the raw error text to the admin. -/
def import_users (s : DbState) (rows : List (Except String CsvRow)) :
    Except String Nat × DbState :=
  match importRows s.current rows 0 with
  | .ok (d, count) => (.ok count, (s.setCurrent d).commit)
  | .error e => (.error e, s.rollback)

/-- A batch whose rows are fine up to the point where one raises ends in
that row's error, whatever came before. -/
theorem importRows_error_of_mem (pre : List CsvRow) (e : String)
    (post : List (Except String CsvRow)) :
    ∀ d count, importRows d (pre.map .ok ++ .error e :: post) count = .error e := by
  induction pre with
  | nil => intro d count; rfl
  | cons r rest ih =>
    intro d count
    simpa [importRows] using ih (importRow d r).1 (count + if (importRow d r).2 then 1 else 0)

/-- C2: when reading or processing any row of a CSV import raises an
exception, the whole batch is rolled back — the durable store is exactly
what it was before the import, so no user or credential from an earlier row
persists — and the raw exception text is what the handler returns. -/
theorem C2_import_all_or_nothing (s : DbState) (pre : List CsvRow) (e : String)
    (post : List (Except String CsvRow)) :
    (import_users s (pre.map .ok ++ .error e :: post)).1 = .error e ∧
    (import_users s (pre.map .ok ++ .error e :: post)).2.committed = s.committed ∧
    (import_users s (pre.map .ok ++ .error e :: post)).2.current = s.committed := by
  unfold import_users
  rw [importRows_error_of_mem pre e post s.current 0]
  exact ⟨rfl, rfl, rfl⟩

/-- The claim's creation condition for one row against the state the loop
has reached: non-empty membership number, membership number not present
(earlier batch rows included), and the normalized email either absent or
not colliding. -/
def rowCreates (d : DbData) (row : CsvRow) : Bool :=
  match row.membership_number with
  | none => false
  | some m =>
    !m.isEmpty &&
    !(d.users.any fun u => u.membership_number == m) &&
    (match normEmail row.primary_email with
     | none => true
     | some e => !(d.users.any fun u => u.email == some e))

theorem importRow_eq_rowCreates (d : DbData) (row : CsvRow) :
    (importRow d row).2 = rowCreates d row := by
  unfold importRow rowCreates
  cases row.membership_number with
  | none => rfl
  | some m =>
    by_cases h1 : m.isEmpty
    · simp [h1]
    · by_cases h2 : d.users.any fun u => u.membership_number == m
      · simp [h1, h2]
      · cases he : normEmail row.primary_email with
        | none => simp [h1, h2, he, Option.any]
        | some e =>
          by_cases h3 : d.users.any fun u => u.email == some e
          · simp [h1, h2, he, h3, Option.any]
          · simp [h1, h2, he, h3, Option.any]

theorem importRow_skip_eq (d : DbData) (row : CsvRow)
    (h : (importRow d row).2 = false) : (importRow d row).1 = d := by
  cases hm : row.membership_number with
  | none => simp [importRow, hm]
  | some m =>
    by_cases h1 : m.isEmpty
    · simp [importRow, hm, h1]
    · by_cases h2 : d.users.any fun u => u.membership_number == m
      · simp [importRow, hm, h1, h2]
      · by_cases h3 : (normEmail row.primary_email).any
            fun e => d.users.any fun u => u.email == some e
        · simp [importRow, hm, h1, h2, h3]
        · simp [importRow, hm, h1, h2, h3] at h

theorem importRow_created_shape (d : DbData) (row : CsvRow)
    (h : (importRow d row).2 = true) :
    ∃ m, row.membership_number = some m ∧
      d.users.any (fun u => u.membership_number == m) = false ∧
      (importRow d row).1.users =
        d.users ++ [mkImportedUser d m row (normEmail row.primary_email)] ∧
      (importRow d row).1.creds = d.creds ++ [⟨m, get_password_hash m⟩] := by
  cases hm : row.membership_number with
  | none => simp [importRow, hm] at h
  | some m =>
    by_cases h1 : m.isEmpty
    · simp [importRow, hm, h1] at h
    · by_cases h2 : d.users.any fun u => u.membership_number == m
      · simp [importRow, hm, h1, h2] at h
      · by_cases h3 : (normEmail row.primary_email).any
            fun e => d.users.any fun u => u.email == some e
        · simp [importRow, hm, h1, h2, h3] at h
        · refine ⟨m, rfl, by simpa using h2, ?_, ?_⟩
          · simp [importRow, hm, h1, h2, h3]
          · simp [importRow, hm, h1, h2, h3]

theorem not_mem_mems_of_any_false (d : DbData) (m : String)
    (h : d.users.any (fun u => u.membership_number == m) = false) :
    m ∉ d.users.map fun u => u.membership_number := by
  intro hm
  rw [List.mem_map] at hm
  obtain ⟨u, hu, he⟩ := hm
  rw [List.any_eq_false] at h
  exact h u hu (by simp [he])

theorem importRow_nodup (d : DbData) (row : CsvRow)
    (h : (d.users.map fun u => u.membership_number).Nodup) :
    ((importRow d row).1.users.map fun u => u.membership_number).Nodup := by
  by_cases hc : (importRow d row).2 = true
  · obtain ⟨m, _, hfresh, hu, -⟩ := importRow_created_shape d row hc
    rw [hu, List.map_append]
    rw [List.nodup_append]
    refine ⟨h, List.nodup_singleton _, ?_⟩
    intro x hx hx'
    simp [mkImportedUser] at hx'
    subst hx'
    exact not_mem_mems_of_any_false d _ hfresh hx
  · rw [importRow_skip_eq d row (by simpa using hc)]
    exact h

theorem importRows_nodup (rows : List (Except String CsvRow)) :
    ∀ d count d' n, importRows d rows count = .ok (d', n) →
      (d.users.map fun u => u.membership_number).Nodup →
      (d'.users.map fun u => u.membership_number).Nodup := by
  induction rows with
  | nil =>
    intro d count d' n h hd
    simp [importRows] at h
    rw [← h.1]
    exact hd
  | cons r rest ih =>
    cases r with
    | error e => intro d count d' n h hd; simp [importRows] at h
    | ok row =>
      intro d count d' n h hd
      simp only [importRows] at h
      exact ih _ _ _ _ h (importRow_nodup d row hd)

/-- C6: a CSV row creates a user exactly when its membership number is
non-empty and not already present — presence introduced by an earlier row
of the same batch included — and its normalized email (blank treated as
absent) does not collide; a skipped row changes nothing; a created user has
the admin flag forced false and a paired credential hashing the membership
number; membership numbers stay duplicate-free, and a two-row batch sharing
one membership number creates exactly one user. -/
theorem C6_import_row_conditions :
    (∀ d row, (importRow d row).2 = rowCreates d row) ∧
    (∀ e : String, e.trim = "" → normEmail (some e) = none) ∧
    (∀ d row, (importRow d row).2 = false → (importRow d row).1 = d) ∧
    (∀ d row, (importRow d row).2 = true →
      ∃ m, row.membership_number = some m ∧
        (importRow d row).1.users =
          d.users ++ [mkImportedUser d m row (normEmail row.primary_email)] ∧
        (importRow d row).1.creds = d.creds ++ [⟨m, get_password_hash m⟩] ∧
        (mkImportedUser d m row (normEmail row.primary_email)).is_admin = false) ∧
    (∀ rows d count d' n, importRows d rows count = .ok (d', n) →
      (d.users.map fun u => u.membership_number).Nodup →
      (d'.users.map fun u => u.membership_number).Nodup) ∧
    (∀ d r1 r2 m, r1.membership_number = some m → r2.membership_number = some m →
      rowCreates d r1 = true →
      importRows d [.ok r1, .ok r2] 0 = .ok ((importRow d r1).1, 1) ∧
      ((importRow d r1).1.users.filter fun u => u.membership_number == m).length = 1) := by
  refine ⟨importRow_eq_rowCreates, ?_, importRow_skip_eq, ?_, ?_, ?_⟩
  · intro e he
    unfold normEmail
    simp [he]
  · intro d row h
    obtain ⟨m, hm, -, hu, hc⟩ := importRow_created_shape d row h
    exact ⟨m, hm, hu, hc, rfl⟩
  · exact fun rows d count d' n h hd => importRows_nodup rows d count d' n h hd
  · intro d r1 r2 m hm1 hm2 hcr
    have hcreated : (importRow d r1).2 = true := by
      rw [importRow_eq_rowCreates]; exact hcr
    obtain ⟨m', hm', hfresh, hu, -⟩ := importRow_created_shape d r1 hcreated
    have hmm : m' = m := by
      have : some m' = some m := hm'.symm.trans hm1
      injection this
    subst hmm
    have hin : ((importRow d r1).1.users.any
        fun u => u.membership_number == m') = true := by
      rw [hu, List.any_append]
      simp [mkImportedUser]
    have hskip : (importRow (importRow d r1).1 r2).2 = false := by
      rw [importRow_eq_rowCreates]
      simp [rowCreates, hm2, hin]
    have h2eq := importRow_skip_eq _ r2 hskip
    have hrows : importRows d [.ok r1, .ok r2] 0 =
        .ok ((importRow d r1).1, 1) := by
      simp [importRows, hcreated, hskip, h2eq]
    refine ⟨hrows, ?_⟩
    rw [hu, List.filter_append]
    have hempty : (d.users.filter fun u => u.membership_number == m') = [] := by
      rw [List.filter_eq_nil_iff]
      intro u hu'
      rw [List.any_eq_false] at hfresh
      exact hfresh u hu'
    rw [hempty]
    simp [mkImportedUser]

/-- C6 witness: a concrete two-row batch sharing membership number "100"
imports exactly one user (bump count 1). -/
theorem C6_witness :
    importRows {} [.ok { membership_number := some "100" },
                   .ok { membership_number := some "100" }] 0 =
      .ok ((importRow {} { membership_number := some "100" }).1, 1) :=
  (C6_import_row_conditions.2.2.2.2.2 {} _ _ "100" rfl rfl (by decide)).1

/-! ## Password reset (`reset_password`, main.py:206-242) -/

/-- Outcome of a reset-password submission: success redirects to the login
template; everything else re-renders the reset form with an error. -/
inductive ResetResult where
  | mismatch
  | weak
  | invalidKey
  | userNotFound
  | success
deriving Repr, DecidableEq

/-- The user-visible message each outcome renders (the literal template
strings of main.py:214-231); `none` for the success redirect. -/
def ResetResult.message : ResetResult → Option String
  | .mismatch => some "Passwords do not match."
  | .weak => some
      "Password must be at least 10 characters long and contain both upper and lower case letters."
  | .invalidKey => some "Invalid or expired reset key."
  | .userNotFound => some "User not found."
  | .success => none

/-- The token query of main.py:220-224: key matches, unused, expiry in the
future. -/
def findReset (d : DbData) (key : String) (now : Nat) : Option PasswordReset :=
  d.resets.find? fun r => r.key == key && !r.used && decide (now < r.expires_at)

/-- main.py:233-238: overwrite the credential's hash, creating the row
first when absent. The `key` column being unique, updating every matching
row is the update of the fetched row. -/
def upsertCredHash (d : DbData) (m h : String) : DbData :=
  if d.creds.any (fun c => c.membership_number == m) then
    { d with creds := d.creds.map fun c =>
        if c.membership_number == m then { c with password_hash := h } else c }
  else
    { d with creds := d.creds ++ [⟨m, h⟩] }

/-- main.py:239: `reset_request.used = True` on the fetched row (the unique
row with this key). -/
def markReset (d : DbData) (key : String) : DbData :=
  { d with resets := d.resets.map fun r =>
      if r.key == key then { r with used := true } else r }

/-- `reset_password` (main.py:206-242), with the code's check order:
password mismatch, then strength, then token lookup, then user lookup,
then the committed credential overwrite and token consumption. -/
def reset_password (s : DbState) (now : Nat)
    (key new_password confirm_password : String) : ResetResult × DbState :=
  if !(new_password == confirm_password) then (.mismatch, s)
  else if !(is_password_strong new_password) then (.weak, s)
  else
    match findReset s.current key now with
    | none => (.invalidKey, s)
    | some reset_request =>
      match s.current.users.find? (fun u => u.id == reset_request.user_id) with
      | none => (.userNotFound, s)
      | some user =>
        let d := upsertCredHash s.current user.membership_number
          (get_password_hash new_password)
        (.success, (s.setCurrent (markReset d key)).commit)

theorem upsertCredHash_has (d : DbData) (m h : String) :
    ∃ c ∈ (upsertCredHash d m h).creds,
      c.membership_number = m ∧ c.password_hash = h := by
  unfold upsertCredHash
  by_cases hex : d.creds.any fun c => c.membership_number == m
  · rw [if_pos hex]
    rw [List.any_eq_true] at hex
    obtain ⟨c0, hc0, hm⟩ := hex
    refine ⟨{ c0 with password_hash := h }, ?_, by simpa using hm, rfl⟩
    simp only [List.mem_map]
    exact ⟨c0, hc0, by simp [hm]⟩
  · rw [if_neg hex]
    exact ⟨⟨m, h⟩, by simp, rfl, rfl⟩

theorem upsertCredHash_resets (d : DbData) (m h : String) :
    (upsertCredHash d m h).resets = d.resets := by
  unfold upsertCredHash
  by_cases hex : d.creds.any fun c => c.membership_number == m
  · rw [if_pos hex]
  · rw [if_neg hex]

theorem reset_password_invalid_of_none (s' : DbState) (now' : Nat)
    (key np' : String) (hstr : is_password_strong np' = true)
    (hnone : findReset s'.current key now' = none) :
    reset_password s' now' key np' np' = (.invalidKey, s') := by
  simp [reset_password, hstr, hnone]

theorem findReset_after_mark (d : DbData) (key : String) (now' : Nat) :
    findReset (markReset d key) key now' = none := by
  unfold findReset markReset
  rw [List.find?_eq_none]
  intro r' hr'
  simp only [List.mem_map] at hr'
  obtain ⟨r0, hr0, rfl⟩ := hr'
  by_cases hk : r0.key == key
  · simp [hk]
  · simp [hk]

/-- C3: a reset token is usable at most once. A successful reset happens
only on a token that is unused with its expiry in the future; it marks the
token used and overwrites (or creates) the user's credential with the hash
of the new password; and on the resulting state, any later reset attempt
with the same key (at any time, with any matching, strong password pair)
fails with the "Invalid or expired reset key." message and changes
nothing. -/
theorem C3_reset_token_single_use (s : DbState) (now : Nat) (key np cp : String)
    (hsucc : (reset_password s now key np cp).1 = .success) :
    (∃ r ∈ s.current.resets, r.key = key ∧ r.used = false ∧ now < r.expires_at) ∧
    (∀ r ∈ (reset_password s now key np cp).2.current.resets,
      r.key = key → r.used = true) ∧
    (∃ u ∈ s.current.users, ∃ c ∈ (reset_password s now key np cp).2.current.creds,
      c.membership_number = u.membership_number ∧
      c.password_hash = get_password_hash np) ∧
    (∀ now' np' cp', np' = cp' → is_password_strong np' = true →
      reset_password (reset_password s now key np cp).2 now' key np' cp' =
        (.invalidKey, (reset_password s now key np cp).2) ∧
      ResetResult.message .invalidKey = some "Invalid or expired reset key.") := by
  by_cases h1 : np == cp
  case neg => simp [reset_password, h1] at hsucc
  by_cases h2 : is_password_strong np
  case neg => simp [reset_password, h1, h2] at hsucc
  cases hr : findReset s.current key now with
  | none => simp [reset_password, h1, h2, hr] at hsucc
  | some r =>
    cases hu : s.current.users.find? (fun u => u.id == r.user_id) with
    | none => simp [reset_password, h1, h2, hr, hu] at hsucc
    | some user =>
      have hs' : (reset_password s now key np cp).2 =
          (s.setCurrent (markReset (upsertCredHash s.current
            user.membership_number (get_password_hash np)) key)).commit := by
        simp [reset_password, h1, h2, hr, hu]
      refine ⟨?_, ?_, ?_, ?_⟩
      · have hmem := List.mem_of_find?_eq_some hr
        have hpred := List.find?_some hr
        simp only [Bool.and_eq_true, beq_iff_eq, Bool.not_eq_true',
          decide_eq_true_eq] at hpred
        exact ⟨r, hmem, hpred.1.1, hpred.1.2, hpred.2⟩
      · intro r' hr' hk
        rw [hs'] at hr'
        simp only [DbState.commit, DbState.setCurrent, markReset,
          List.mem_map] at hr'
        obtain ⟨r0, hr0, rfl⟩ := hr'
        by_cases hk0 : r0.key == key
        · simp [hk0]
        · simp [hk0] at hk
          exact absurd hk (by simpa using hk0)
      · obtain ⟨c, hc, hcm, hch⟩ := upsertCredHash_has s.current
          user.membership_number (get_password_hash np)
        refine ⟨user, List.mem_of_find?_eq_some hu, c, ?_, hcm, hch⟩
        rw [hs']
        simp only [DbState.commit, DbState.setCurrent, markReset]
        exact hc
      · intro now' np' cp' he hstr
        subst he
        have hnone : findReset (reset_password s now key np cp).2.current
            key now' = none := by
          rw [hs']
          exact findReset_after_mark _ key now'
        exact ⟨reset_password_invalid_of_none _ now' key np' hstr hnone, rfl⟩

/-- C8: every reset-password submission that does not succeed leaves the
store exactly as it was — no credential modified or created, no token
marked used — and renders a user-visible error message. -/
theorem C8_reset_failure_no_state_change (s : DbState) (now : Nat)
    (key np cp : String)
    (h : (reset_password s now key np cp).1 ≠ .success) :
    (reset_password s now key np cp).2 = s ∧
    ∃ msg, (reset_password s now key np cp).1.message = some msg := by
  by_cases h1 : np == cp
  · by_cases h2 : is_password_strong np
    · cases hr : findReset s.current key now with
      | none => simp [reset_password, h1, h2, hr, ResetResult.message]
      | some r =>
        cases hu : s.current.users.find? (fun u => u.id == r.user_id) with
        | none => simp [reset_password, h1, h2, hr, hu, ResetResult.message]
        | some user =>
          exact absurd (by simp [reset_password, h1, h2, hr, hu]) h
    · simp [reset_password, h1, h2, ResetResult.message]
  · simp [reset_password, h1, ResetResult.message]

/-- A concrete store with one user, one credential and one live reset
token. -/
def C3wDb : DbData :=
  { users := [{ id := 1, membership_number := "1001", email := some "a@x.com" }],
    creds := [⟨"1001", get_password_hash "OldPassword1"⟩],
    resets := [{ id := 1, user_id := 1, key := "K1", expires_at := 100 }] }

/-- C3 witness: on the concrete store, the reset with key "K1" succeeds at
time 50, and the second attempt with the same key fails with the
invalid-or-expired outcome and no state change. -/
theorem C3_witness :
    (reset_password (DbState.fresh C3wDb) 50 "K1" "Abcdefghij" "Abcdefghij").1 =
      .success ∧
    reset_password
        (reset_password (DbState.fresh C3wDb) 50 "K1" "Abcdefghij" "Abcdefghij").2
        60 "K1" "Zyxwvutsrq" "Zyxwvutsrq" =
      (.invalidKey,
        (reset_password (DbState.fresh C3wDb) 50 "K1" "Abcdefghij" "Abcdefghij").2) :=
  ⟨by decide,
    ((C3_reset_token_single_use (DbState.fresh C3wDb) 50 "K1" "Abcdefghij"
      "Abcdefghij" (by decide)).2.2.2 60 "Zyxwvutsrq" "Zyxwvutsrq" rfl
      (by decide)).1⟩

/-- C8 witness: a concrete failing submission (mismatched passwords)
changes nothing and renders a message. -/
theorem C8_witness :
    (reset_password (DbState.fresh C3wDb) 50 "K1" "Abcdefghij" "Nope").2 =
      DbState.fresh C3wDb ∧
    ∃ msg, (reset_password (DbState.fresh C3wDb) 50 "K1" "Abcdefghij"
      "Nope").1.message = some msg :=
  C8_reset_failure_no_state_change (DbState.fresh C3wDb) 50 "K1" "Abcdefghij"
    "Nope" (by decide)

/-! ## POSIX path primitives (`os.path`, as the media routes use them) -/

/-- Python `p.split('/')` on the character list, keeping empty pieces. -/
def splitSlashAux : List Char → List Char → List String
  | [], acc => [String.mk acc.reverse]
  | c :: rest, acc =>
    if c == '/' then String.mk acc.reverse :: splitSlashAux rest []
    else splitSlashAux rest (c :: acc)

/-- Python `p.split('/')`. -/
def splitSlash (p : String) : List String :=
  splitSlashAux p.data []

/-- `'/'.join(comps)`. -/
def joinSlash : List String → String
  | [] => ""
  | [x] => x
  | x :: xs => x ++ "/" ++ joinSlash xs

/-- Python `s.startswith(t)`. -/
def charsStartWith : List Char → List Char → Bool
  | _, [] => true
  | [], _ :: _ => false
  | c :: cs, d :: ds => c == d && charsStartWith cs ds

/-- Python `s.startswith(t)` on strings. -/
def startswith (s t : String) : Bool :=
  charsStartWith s.data t.data

/-- One step of the component loop of `posixpath.normpath`. -/
def normStep (isAbs : Bool) (acc : List String) (comp : String) : List String :=
  if comp == "" || comp == "." then acc
  else if !(comp == "..") || (!isAbs && acc.isEmpty) ||
      (acc.getLast? == some "..") then acc ++ [comp]
  else if !acc.isEmpty then acc.dropLast
  else acc

/-- The leading-slash count `posixpath.normpath` preserves: one, or two for
exactly a double slash. -/
def initialSlashes (p : String) : Nat :=
  if startswith p "/" then
    if startswith p "//" && !(startswith p "///") then 2 else 1
  else 0

/-- `os.path.normpath` for POSIX paths. -/
def normpath (p : String) : String :=
  if p.isEmpty then "."
  else
    let n := initialSlashes p
    let comps := (splitSlash p).foldl (normStep (n != 0)) []
    let res := String.join (List.replicate n "/") ++ joinSlash comps
    if res.isEmpty then "." else res

/-- `os.path.join` for POSIX paths, two arguments. -/
def pathJoin (a b : String) : String :=
  if startswith b "/" then b
  else if a.isEmpty || (a.data.getLast? == some '/') then a ++ b
  else a ++ "/" ++ b

/-- `os.path.abspath` with working directory `cwd`. -/
def abspath (cwd p : String) : String :=
  if startswith p "/" then normpath p else normpath (pathJoin cwd p)

/-- The deletion guard of `update_page` (main.py:446-448): the candidate
passes when `os.path.abspath(os.path.normpath(os.path.join(MEDIA_FOLDER,
image_path)))` starts with `os.path.abspath(MEDIA_FOLDER)`; only then is
the file removed. -/
def update_page_image_guard (cwd mediaFolder image_path : String) : Bool :=
  let full_path := normpath (pathJoin mediaFolder image_path)
  startswith (abspath cwd full_path) (abspath cwd mediaFolder)

/-- The guard of `get_media` (main.py:704-709): `safe_path =
normpath(join(MEDIA_FOLDER, file_path))` must start with
`abspath(MEDIA_FOLDER)`, otherwise 404. -/
def get_media_guard (cwd mediaFolder file_path : String) : Bool :=
  let safe_path := normpath (pathJoin mediaFolder file_path)
  startswith safe_path (abspath cwd mediaFolder)

/-- The claim's containment notion: the resolved path is the media root
itself or strictly below it. -/
def withinRoot (root p : String) : Bool :=
  p == root || startswith p (root ++ "/")

/-- C4 (code bug): both guards are bare string-prefix checks. With media
root "/srv/media", the submitted path "../media2/x.png" resolves to
"/srv/media2/x.png" — outside the root — yet both guards accept it, because
"/srv/media2/x.png" starts with the characters "/srv/media". The claimed
refusal of every path that escapes the media root (and of "../" segments in
particular) does not hold of the code. -/
theorem C4_guard_admits_escaping_path :
    normpath (pathJoin "/srv/media" "../media2/x.png") = "/srv/media2/x.png" ∧
    withinRoot "/srv/media"
      (normpath (pathJoin "/srv/media" "../media2/x.png")) = false ∧
    update_page_image_guard "/srv" "/srv/media" "../media2/x.png" = true ∧
    get_media_guard "/srv" "/srv/media" "../media2/x.png" = true := by
  refine ⟨?_, ?_, ?_, ?_⟩ <;> rfl

/-! ## Identity resolution (`get_current_user`, main.py:49-53, duplicated
at admin.py:16-20) -/

/-- Python `str.strip()`-style whitespace (ASCII). -/
def isPyWhitespace (c : Char) : Bool :=
  c == ' ' || c == '\t' || c == '\n' || c == '\r' || c == '\x0b' || c == '\x0c'

/-- Python `s.strip()` over ASCII whitespace. -/
def pyStrip (s : String) : String :=
  String.mk (((s.data.dropWhile isPyWhitespace).reverse.dropWhile
    isPyWhitespace).reverse)

/-- ASCII decimal digit. -/
def isPyDigit (c : Char) : Bool := '0' ≤ c && c ≤ '9'

/-- Two consecutive underscores somewhere in the list. -/
def hasDoubleUnderscore : List Char → Bool
  | [] => false
  | [_] => false
  | a :: b :: rest => (a == '_' && b == '_') || hasDoubleUnderscore (b :: rest)

/-- The digit body Python `int()` accepts (ASCII): nonempty, digits with
single underscores strictly between digits. -/
def pyDigitsValid (cs : List Char) : Bool :=
  !cs.isEmpty &&
  cs.all (fun c => isPyDigit c || c == '_') &&
  (cs.head?.any isPyDigit) &&
  (cs.getLast?.any isPyDigit) &&
  !hasDoubleUnderscore cs

/-- Numeric value of a digit body, skipping underscores. -/
def digitsVal (cs : List Char) : Nat :=
  cs.foldl (fun acc c => if c == '_' then acc else acc * 10 + (c.toNat - 48)) 0

/-- Python `int(s)` over ASCII: optional surrounding whitespace, optional
sign, digit body; `none` models the ValueError it raises otherwise. -/
def pyInt (s : String) : Option Int :=
  match (pyStrip s).data with
  | '+' :: rest => if pyDigitsValid rest then some (digitsVal rest) else none
  | '-' :: rest => if pyDigitsValid rest then some (-(digitsVal rest : Int)) else none
  | cs => if pyDigitsValid cs then some (digitsVal cs) else none

/-- `get_current_user` (main.py:49-53): read the `user_id` cookie; Python
truthiness skips an absent or empty cookie; `int(user_id)` raises
ValueError on a malformed value (modelled as `.error`); otherwise the user
with that id, or anonymous. -/
def get_current_user (cookie : Option String) (d : DbData) :
    Except String (Option User) :=
  match cookie with
  | none => .ok none
  | some user_id =>
    if user_id.isEmpty then .ok none
    else
      match pyInt user_id with
      | none => .error "ValueError: invalid literal for int() with base 10"
      | some uid => .ok (d.users.find? fun u => ((u.id : Int) == uid))

/-- C5 counterexample: the malformed cookie "abc" makes identity resolution
raise (`int("abc")` → ValueError) instead of yielding anonymous. -/
theorem C5_counterexample :
    get_current_user (some "abc") {} =
      .error "ValueError: invalid literal for int() with base 10" := by
  rfl

/-- C5 (amended): an absent or empty identifier yields anonymous; a
well-formed numeric identifier yields the user with that id when one
exists and anonymous otherwise, never an error; but a nonempty identifier
that is not a valid integer literal raises an error (Python ValueError)
rather than yielding anonymous. -/
theorem C5_identity_resolution (d : DbData) (cookie : String) :
    get_current_user none d = .ok none ∧
    get_current_user (some "") d = .ok none ∧
    (∀ uid, pyInt cookie = some uid → cookie.isEmpty = false →
      get_current_user (some cookie) d =
        .ok (d.users.find? fun u => ((u.id : Int) == uid))) ∧
    (pyInt cookie = none → cookie.isEmpty = false →
      get_current_user (some cookie) d =
        .error "ValueError: invalid literal for int() with base 10") := by
  refine ⟨rfl, rfl, ?_, ?_⟩
  · intro uid hp he
    simp [get_current_user, he, hp]
  · intro hp he
    simp [get_current_user, he, hp]

/-- C5 witness: a well-formed cookie resolves to the matching user on a
concrete store. -/
theorem C5_witness :
    get_current_user (some "17")
        { users := [{ id := 17, membership_number := "m17" }] } =
      .ok (some { id := 17, membership_number := "m17" }) := by
  rw [(C5_identity_resolution
    { users := [{ id := 17, membership_number := "m17" }] } "17").2.2.1 17
    rfl rfl]
  rfl

/-! ## Image upload (`upload_image`, main.py:671-702, duplicated at
admin.py:398-429) -/

/-- Python `c.isalnum()` over ASCII. -/
def pyIsAlnum (c : Char) : Bool :=
  ('a' ≤ c && c ≤ 'z') || ('A' ≤ c && c ≤ 'Z') || ('0' ≤ c && c ≤ '9')

/-- main.py:677-683: strip the submitted slug, fall back to "general" when
blank, then keep only alphanumerics, hyphens and underscores. -/
def sanitizeSlug (slug : String) : String :=
  let safe_slug := pyStrip slug
  let safe_slug := if safe_slug.isEmpty then "general" else safe_slug
  String.mk (safe_slug.data.filter fun c => pyIsAlnum c || c == '-' || c == '_')

/-- `filename.replace(" ", "_")`: a single-character replace is a
character map. -/
def replaceSpaces (cs : List Char) : List Char :=
  cs.map fun c => if c == ' ' then '_' else c

/-- `os.path.basename`: the suffix after the last '/'. -/
def basenameFold (cs : List Char) : List Char :=
  cs.foldl (fun acc c => if c == '/' then [] else acc ++ [c]) []

/-- main.py:690-694: replace spaces, then strip directory components. -/
def sanitizeFilename (filename : String) : String :=
  String.mk (basenameFold (replaceSpaces filename.data))

/-- What `upload_image` writes and returns: the media subdirectory, the
stored filename, and the public URL. -/
structure UploadResult where
  dir : String
  filename : String
  url : String
deriving Repr, DecidableEq

/-- `upload_image` (main.py:671-702). -/
def upload_image (slug filename : String) : UploadResult :=
  let safe_slug := sanitizeSlug slug
  let safe_filename := sanitizeFilename filename
  ⟨safe_slug, safe_filename, "/media/" ++ safe_slug ++ "/" ++ safe_filename⟩

theorem basenameFold_no_slash (cs : List Char) :
    ∀ acc, '/' ∉ acc →
      '/' ∉ cs.foldl (fun acc c => if c == '/' then [] else acc ++ [c]) acc := by
  induction cs with
  | nil => exact fun acc h => h
  | cons c rest ih =>
    intro acc h
    by_cases hc : c == '/'
    · simp only [List.foldl_cons, hc, if_true]
      exact ih [] (by simp)
    · simp only [List.foldl_cons, hc, if_false]
      refine ih _ fun hmem => ?_
      rcases List.mem_append.mp hmem with h1 | h2
      · exact h h1
      · rw [List.mem_singleton] at h2
        exact absurd h2.symm (by simpa using hc)

theorem basenameFold_no_space (cs : List Char) (hcs : ∀ c ∈ cs, c ≠ ' ') :
    ∀ acc, ' ' ∉ acc →
      ' ' ∉ cs.foldl (fun acc c => if c == '/' then [] else acc ++ [c]) acc := by
  induction cs with
  | nil => exact fun acc h => h
  | cons c rest ih =>
    intro acc h
    have hrest : ∀ c' ∈ rest, c' ≠ ' ' := fun c' hc' => hcs c' (List.mem_cons_of_mem c hc')
    by_cases hc : c == '/'
    · simp only [List.foldl_cons, hc, if_true]
      exact ih hrest [] (by simp)
    · simp only [List.foldl_cons, hc, if_false]
      refine ih hrest _ fun hmem => ?_
      rcases List.mem_append.mp hmem with h1 | h2
      · exact h h1
      · rw [List.mem_singleton] at h2
        exact hcs c (List.mem_cons_self c rest) h2.symm

theorem replaceSpaces_no_space (cs : List Char) :
    ∀ c ∈ replaceSpaces cs, c ≠ ' ' := by
  intro c hc
  rw [replaceSpaces, List.mem_map] at hc
  obtain ⟨c0, -, rfl⟩ := hc
  by_cases h0 : c0 == ' '
  · simp [h0]
  · simpa [h0] using (by simpa using h0 : c0 ≠ ' ')

/-- C9: the stored media subdirectory name contains only alphanumerics,
hyphens and underscores; a blank submitted slug falls back to "general";
the stored filename contains no '/' (directory components stripped) and no
space (spaces replaced by underscores); and the handler's URL is
/media/<dir>/<filename> built from exactly that directory and filename. -/
theorem C9_upload_sanitization (slug filename : String) :
    (∀ c ∈ (upload_image slug filename).dir.data,
      pyIsAlnum c = true ∨ c = '-' ∨ c = '_') ∧
    (pyStrip slug = "" → (upload_image slug filename).dir = "general") ∧
    ('/' ∉ (upload_image slug filename).filename.data ∧
      ' ' ∉ (upload_image slug filename).filename.data) ∧
    (upload_image slug filename).url =
      "/media/" ++ (upload_image slug filename).dir ++ "/" ++
        (upload_image slug filename).filename := by
  refine ⟨?_, ?_, ⟨?_, ?_⟩, rfl⟩
  · intro c hc
    have : c ∈ (if (pyStrip slug).isEmpty then "general" else pyStrip slug).data.filter
        (fun c => pyIsAlnum c || c == '-' || c == '_') := hc
    rw [List.mem_filter] at this
    rcases Bool.or_eq_true .. ▸ this.2 with h | h
    · rcases Bool.or_eq_true .. ▸ h with h' | h'
      · exact Or.inl h'
      · exact Or.inr (Or.inl (by simpa using h'))
    · exact Or.inr (Or.inr (by simpa using h))
  · intro h
    show sanitizeSlug slug = "general"
    unfold sanitizeSlug
    rw [h]
    rfl
  · exact basenameFold_no_slash (replaceSpaces filename.data) [] (by simp)
  · exact basenameFold_no_space (replaceSpaces filename.data)
      (replaceSpaces_no_space filename.data) [] (by simp)

/-- C9 witness: a blank slug lands in "general", and "a b/c d.png" is
stored as "c_d.png" with the matching URL. -/
theorem C9_witness :
    (upload_image "  " "a b/c d.png").dir = "general" ∧
    (upload_image "  " "a b/c d.png").filename = "c_d.png" ∧
    (upload_image "  " "a b/c d.png").url = "/media/general/c_d.png" :=
  ⟨(C9_upload_sanitization "  " "a b/c d.png").2.1 rfl, rfl, rfl⟩

/-! ## Admin user edit (`update_user`, main.py:557-612, duplicated at
admin.py:287-342) -/

/-- The form fields of the user-edit POST; optional fields default to
`None` when absent from the submission. -/
structure UpdateUserForm where
  membership_number : String
  first_name : Option String := none
  last_name : Option String := none
  email : Option String := none
  phone_number : Option String := none
  position : Option String := none
  is_admin : Bool := false
deriving Repr, DecidableEq

/-- Outcome of the user-edit handler. `attrError` is the uncaught
`AttributeError` raised by `position.lower()` when the position field is
absent (main.py:600). -/
inductive UpdateUserResult where
  | redirectHome
  | notFound
  | memTaken
  | emailTaken
  | attrError
  | redirectUsers
deriving Repr, DecidableEq

/-- main.py:584-585: `if email and email.strip() == "": email = None` —
only a truthy all-whitespace email is nulled; an empty string stays. -/
def normEmailUpdate : Option String → Option String
  | none => none
  | some e => if !e.isEmpty && (pyStrip e).isEmpty then none else some e

/-- The mutations main.py:594-609 performs when the handler reaches the
commit: the target row's fields, and the credential row renamed when the
membership number changed. -/
def applyUserEdit (d : DbData) (user_id : Nat) (f : UpdateUserForm)
    (position : Option String) (old_membership_number : String) : DbData :=
  { d with
    users := d.users.map fun u =>
      if u.id == user_id then
        { u with
          membership_number := f.membership_number,
          first_name := f.first_name,
          last_name := f.last_name,
          email := normEmailUpdate f.email,
          phone_number := f.phone_number,
          position := position,
          is_admin := f.is_admin }
      else u,
    creds :=
      if !(old_membership_number == f.membership_number) then
        d.creds.map fun c =>
          if c.membership_number == old_membership_number then
            { c with membership_number := f.membership_number }
          else c
      else d.creds }

/-- main.py:586-589: a truthy normalized email that belongs to a different
existing user is a conflict. -/
def emailConflict (d : DbData) (email : Option String) (user_id : Nat) : Bool :=
  pyTruthy email &&
    ((match email with
      | some e => d.users.find? (fun (u : User) => u.email == some e)
      | none => (none : Option User)).any fun (u : User) => u.id != user_id)

/-- `update_user` (main.py:557-612): admin gate, 404 on a missing target,
duplicate membership-number and email checks, then the field updates.
`position.lower()` on an absent position raises before `db.commit()`; the
session teardown then discards the uncommitted mutations (`rollback`). -/
def update_user (s : DbState) (requester : Option User) (user_id : Nat)
    (f : UpdateUserForm) : UpdateUserResult × DbState :=
  match requester with
  | none => (.redirectHome, s)
  | some user =>
    if !user.is_admin then (.redirectHome, s)
    else
      match s.current.users.find? (fun u => u.id == user_id) with
      | none => (.notFound, s)
      | some edit_user =>
        if ((s.current.users.find?
            (fun u => u.membership_number == f.membership_number)).any
            fun u => u.id != user_id) then (.memTaken, s)
        else
          let email := normEmailUpdate f.email
          if emailConflict s.current email user_id then
            (.emailTaken, s)
          else
            match f.position with
            | none => (.attrError, s.rollback)
            | some p =>
              let position := if pyLower p == "none" then none else some p
              (.redirectUsers,
                (s.setCurrent (applyUserEdit s.current user_id f position
                  edit_user.membership_number)).commit)

/-- C10: a user-edit submission whose position form field is absent never
succeeds and never changes the durable store — and once the admin gate,
the target lookup and the duplicate checks pass, it ends in the
AttributeError from `position.lower()` (raised before `db.commit()`), so
the user is not updated. -/
theorem C10_update_user_position_none (s : DbState) (requester : Option User)
    (user_id : Nat) (f : UpdateUserForm) (hpos : f.position = none) :
    (update_user s requester user_id f).1 ≠ .redirectUsers ∧
    (update_user s requester user_id f).2.committed = s.committed ∧
    (∀ admin, requester = some admin → admin.is_admin = true →
      (s.current.users.find? fun u => u.id == user_id).isSome = true →
      ((s.current.users.find?
          (fun u => u.membership_number == f.membership_number)).any
          fun u => u.id != user_id) = false →
      emailConflict s.current (normEmailUpdate f.email) user_id = false →
      (update_user s requester user_id f).1 = .attrError) := by
  cases requester with
  | none =>
    refine ⟨by simp [update_user], by simp [update_user], ?_⟩
    intro admin h
    exact absurd h (by simp)
  | some user =>
    by_cases hadm : user.is_admin
    · cases hfind : s.current.users.find? (fun u => u.id == user_id) with
      | none =>
        refine ⟨by simp [update_user, hadm, hfind], by simp [update_user, hadm, hfind], ?_⟩
        intro admin heq _ hsome _ _
        simp at hsome
      | some edit_user =>
        by_cases hmem : ((s.current.users.find?
            (fun u => u.membership_number == f.membership_number)).any
            fun u => u.id != user_id)
        · refine ⟨by simp [update_user, hadm, hfind, hmem],
            by simp [update_user, hadm, hfind, hmem], ?_⟩
          intro admin heq _ _ hmem' _
          rw [hmem'] at hmem
          simp at hmem
        · by_cases hem : emailConflict s.current (normEmailUpdate f.email) user_id
          · refine ⟨by simp [update_user, hadm, hfind, hmem, hem],
              by simp [update_user, hadm, hfind, hmem, hem], ?_⟩
            intro admin heq _ _ _ hem'
            rw [hem'] at hem
            simp at hem
          · refine ⟨by simp [update_user, hadm, hfind, hmem, hem, hpos],
              by simp [update_user, hadm, hfind, hmem, hem, hpos, DbState.rollback], ?_⟩
            intro admin heq _ _ _ _
            simp [update_user, hadm, hfind, hmem, hem, hpos]
    · refine ⟨by simp [update_user, hadm], by simp [update_user, hadm], ?_⟩
      intro admin heq hadm' _ _ _
      obtain rfl : user = admin := by injection heq
      exact absurd hadm' (by simpa using hadm)

/-- A concrete store with an admin and a second user. -/
def C10wDb : DbData :=
  { users := [{ id := 1, membership_number := "admin1", is_admin := true },
              { id := 2, membership_number := "2002" }] }

/-- C10 witness: on the concrete store, editing user 2 with the position
field absent ends in the AttributeError and leaves the durable store
untouched. -/
theorem C10_witness :
    (update_user (DbState.fresh C10wDb)
        (some { id := 1, membership_number := "admin1", is_admin := true }) 2
        { membership_number := "2002" }).1 = .attrError ∧
    (update_user (DbState.fresh C10wDb)
        (some { id := 1, membership_number := "admin1", is_admin := true }) 2
        { membership_number := "2002" }).2.committed =
      (DbState.fresh C10wDb).committed := by
  have h := C10_update_user_position_none (DbState.fresh C10wDb)
    (some { id := 1, membership_number := "admin1", is_admin := true }) 2
    { membership_number := "2002" } rfl
  exact ⟨h.2.2 _ rfl rfl (by decide) (by decide) (by decide), h.2.1⟩

end KC
